import Mathlib

/-
Verification development for the Blumira MSP demo dashboard's API routes.

The embedding models the two Next.js route modules:
  * the organizations route (token acquirer `getAccessToken`, per-account
    aggregator `fetchAccountDetails`, totals reducer and `GET` handler), and
  * the credentials route (`GET`/`POST`/`DELETE`) together with the dashboard
    route's own `getAccessToken`.

JSON values are modelled by the inductive `Js` below, with JavaScript
truthiness (`Js.truthy`), property access that yields `undefined`/`null` for a
missing key or a non-object receiver (`Js.get`), and strict equality against
literals (`Js.isStr`, `Js.isNum`).  Numbers are modelled as integers (the
routes only ever compare against the integer literals 0 and 1 and add counts).
Network interactions are modelled by their observable outcome per request
(`FetchOutcome`): a 2xx response with a parsed JSON body, a 2xx response whose
body fails to parse, a non-2xx status with its response text, or a thrown
network error with its message.
-/

namespace Blumira

/-- JSON values as seen by the routes after `response.json()`.  `null` also
stands for JavaScript `undefined`: the routes never distinguish the two (both
are falsy and both make `?.` and `||` take their fallback). -/
inductive Js where
  | null : Js
  | bool : Bool → Js
  | num : Int → Js
  | str : String → Js
  | arr : List Js → Js
  | obj : List (String × Js) → Js

/-- JavaScript truthiness (`ToBoolean`): `null`/`undefined`, `false`, `0` and
`""` are falsy; every array and object is truthy. -/
def Js.truthy : Js → Bool
  | .null => false
  | .bool b => b
  | .num n => n != 0
  | .str s => s ≠ ""
  | .arr _ => true
  | .obj _ => true

/-- Property access `v[k]`: the first binding of the key in an object,
`undefined` (modelled as `.null`) when the key is absent or the receiver is
not an object (the routes read properties off arrays and primitives only in
positions where JavaScript yields `undefined`). -/
def Js.get : Js → String → Js
  | .obj fields, k => ((fields.find? (fun p => p.1 = k)).map Prod.snd).getD .null
  | _, _ => .null

/-- Strict equality `v === "s"` against a string literal. -/
def Js.isStr : Js → String → Bool
  | .str t, s => t = s
  | _, _ => false

/-- Strict equality `v === n` against a number literal. -/
def Js.isNum : Js → Int → Bool
  | .num m, n => m = n
  | _, _ => false

/-- A JSON value viewed as an array, when it is one.  JavaScript code that
calls `.filter`/`.map` on a non-array throws a `TypeError`; call sites below
route that case to the enclosing `catch`. -/
def Js.asArr? : Js → Option (List Js)
  | .arr xs => some xs
  | _ => none

/-- `v || 0` for a field expected to be numeric (backing values in the routes
are JSON numbers; `0` is falsy, so `0 || 0 = 0`). -/
def Js.numOrZero : Js → Int
  | .num n => n
  | _ => 0

/-- `v || "Unknown"` for the license field (backing values are JSON strings;
`""` is falsy, so it also falls back to `"Unknown"`). -/
def Js.licenseOrUnknown : Js → String
  | .str s => if s = "" then "Unknown" else s
  | _ => "Unknown"

/-- The observable outcome of one `fetch` as the routes consume it. -/
inductive FetchOutcome where
  | ok (body : Js)
  | badJson (msg : String)
  | httpError (status : Nat) (text : String)
  | networkError (msg : String)

/-- The parsed body of a successful (2xx, well-formed JSON) response. -/
def FetchOutcome.body? : FetchOutcome → Option Js
  | .ok b => some b
  | _ => none

/-- Truthiness of an environment variable / request field holding a string
(`!clientId` in the routes): absent or empty is falsy. -/
def strTruthy : Option String → Bool
  | some s => s ≠ ""
  | none => false

/-! ### Device status counts (organizations route, lines 146–149)

`const onlineDevices = agentDevices.filter((device) => !device.is_sleeping && device.alive).length`
and the three analogous filters. -/

/-- `agentDevices.filter((device) => !device.is_sleeping && device.alive).length` -/
def onlineDevicesCount (devices : List Js) : Nat :=
  (devices.filter (fun d => !(d.get "is_sleeping").truthy && (d.get "alive").truthy)).length

/-- `agentDevices.filter((device) => device.is_sleeping).length` -/
def sleepingDevicesCount (devices : List Js) : Nat :=
  (devices.filter (fun d => (d.get "is_sleeping").truthy)).length

/-- `agentDevices.filter((device) => device.is_isolated).length` -/
def isolatedDevicesCount (devices : List Js) : Nat :=
  (devices.filter (fun d => (d.get "is_isolated").truthy)).length

/-- `agentDevices.filter((device) => device.is_excluded).length` -/
def excludedDevicesCount (devices : List Js) : Nat :=
  (devices.filter (fun d => (d.get "is_excluded").truthy)).length

/-! ### Token acquirers

The organizations route and the dashboard route each carry their own copy of
`getAccessToken`.  Both first check the two environment variables, POST to the
OAuth endpoint, and throw on a non-2xx status; they differ on a 2xx response:
the dashboard copy validates the parsed body's `access_token` field and throws
when it is falsy, while the organizations copy returns `data.access_token`
unchecked.  Thrown errors are modelled as `Except.error` carrying the error
message. -/

/-- `getAccessToken` of the organizations route (part_000 lines 6–42): on a
2xx response it returns `data.access_token` — `undefined` (here `.null`) when
the field is absent — without any check. -/
def getAccessToken_orgs (clientId clientSecret : Option String)
    (resp : FetchOutcome) : Except String Js :=
  if !strTruthy clientId || !strTruthy clientSecret then
    .error "BLUMIRA_CLIENT_ID and BLUMIRA_CLIENT_SECRET environment variables are required"
  else
    match resp with
    | .ok body => .ok (body.get "access_token")
    | .badJson msg => .error msg
    | .httpError status text =>
        .error ("Authentication failed (" ++ toString status ++ "): " ++ text)
    | .networkError msg => .error msg

/-- `getAccessToken` of the dashboard route (part_001 lines 129–184): parses
the response text itself (its own message on a parse failure) and throws
`"No access token received from authentication endpoint"` when the parsed
body's `access_token` field is falsy; otherwise returns that field. -/
def getAccessToken_dashboard (clientId clientSecret : Option String)
    (resp : FetchOutcome) : Except String Js :=
  if !strTruthy clientId || !strTruthy clientSecret then
    .error "BLUMIRA_CLIENT_ID and BLUMIRA_CLIENT_SECRET environment variables are required"
  else
    match resp with
    | .ok body =>
        if !(body.get "access_token").truthy then
          .error "No access token received from authentication endpoint"
        else
          .ok (body.get "access_token")
    | .badJson _ => .error "Invalid JSON response from authentication endpoint"
    | .httpError status text =>
        .error ("Authentication failed (" ++ toString status ++ "): " ++ text)
    | .networkError msg => .error msg

/-! ### Envelope unwrapping inside `fetchAccountDetails` -/

/-- Account-details unwrapping (part_000 lines 58–65):
`if (accountData.status === "OK" && accountData.data) accountDetails =
accountData.data; else accountDetails = accountData` — the whole body is the
fallback payload. -/
def unwrapDetails (body : Js) : Js :=
  if (body.get "status").isStr "OK" && (body.get "data").truthy then
    body.get "data"
  else
    body

/-- List-endpoint unwrapping used identically for the devices, keys and
findings fetches (part_000 lines 84–89, 108–113, 132–137): the payload/meta
variables start as `[]`/`null` and are assigned only when
`data.status === "OK" && data.data`; there is no bare-payload fallback. -/
def unwrapList (body : Js) : Js × Js :=
  if (body.get "status").isStr "OK" && (body.get "data").truthy then
    (body.get "data", body.get "meta")
  else
    (.arr [], .null)

/-! ### Per-account aggregator `fetchAccountDetails` -/

/-- The record returned by `fetchAccountDetails` (part_000 lines 151–175).
The three collections are stored as lists: on the happy path they are the
(array) payloads, and on the outer-catch path they are empty. -/
structure OrgDetails where
  accountDetails : Js
  agentDevices : List Js
  agentKeys : List Js
  findings : List Js
  agentDeviceCount : Nat
  agentKeyCount : Nat
  findingsCount : Nat
  criticalFindingsCount : Nat
  openFindingsCount : Nat
  onlineDevices : Nat
  sleepingDevices : Nat
  isolatedDevices : Nat
  excludedDevices : Nat
  agent_count_available : Int
  agent_count_used : Int
  license : String
  user_count : Int
  agentDevicesMeta : Js
  agentKeysMeta : Js
  findingsMeta : Js

/-- The all-defaults record returned by the outer `catch` of
`fetchAccountDetails` (part_000 lines 178–199). -/
def defaultOrgDetails : OrgDetails where
  accountDetails := .null
  agentDevices := []
  agentKeys := []
  findings := []
  agentDeviceCount := 0
  agentKeyCount := 0
  findingsCount := 0
  criticalFindingsCount := 0
  openFindingsCount := 0
  onlineDevices := 0
  sleepingDevices := 0
  isolatedDevices := 0
  excludedDevices := 0
  agent_count_available := 0
  agent_count_used := 0
  license := "Unknown"
  user_count := 0
  agentDevicesMeta := .null
  agentKeysMeta := .null
  findingsMeta := .null

/-- The returned object of `fetchAccountDetails` (part_000 lines 145–175)
built from the unwrapped payload/meta pairs.  The `.filter`/`.length` calls of
lines 146–160 require each payload to be an array; on a truthy non-array they
throw a `TypeError` that the outer `catch` turns into `defaultOrgDetails`. -/
def assembleOrgDetails (accountDetails : Js) (devPair keysPair findPair : Js × Js) :
    OrgDetails :=
  match devPair.1.asArr?, keysPair.1.asArr?, findPair.1.asArr? with
  | some ds, some ks, some fs =>
      { accountDetails := accountDetails
        agentDevices := ds
        agentKeys := ks
        findings := fs
        agentDeviceCount := ds.length
        agentKeyCount := ks.length
        findingsCount := fs.length
        criticalFindingsCount := (fs.filter (fun fd => (fd.get "priority").isNum 1)).length
        openFindingsCount := (fs.filter (fun fd => (fd.get "status_name").isStr "Open")).length
        onlineDevices := onlineDevicesCount ds
        sleepingDevices := sleepingDevicesCount ds
        isolatedDevices := isolatedDevicesCount ds
        excludedDevices := excludedDevicesCount ds
        agent_count_available := (accountDetails.get "agent_count_available").numOrZero
        agent_count_used := (accountDetails.get "agent_count_used").numOrZero
        license := (accountDetails.get "license").licenseOrUnknown
        user_count := (accountDetails.get "user_count").numOrZero
        agentDevicesMeta := devPair.2
        agentKeysMeta := keysPair.2
        findingsMeta := findPair.2 }
  | _, _, _ => defaultOrgDetails

/-- `fetchAccountDetails` (part_000 lines 44–201) as a function of the four
fetch outcomes (details, devices, keys, findings).  Each fetch sits in its own
`try/catch`: a non-2xx status, a thrown network error or a JSON parse failure
leaves that resource at its default (`null` details, `[]`/`null`
payload/meta). -/
def fetchAccountDetails (d dev k f : FetchOutcome) : OrgDetails :=
  assembleOrgDetails
    (match d with
      | .ok b => unwrapDetails b
      | _ => .null)
    (match dev with
      | .ok b => unwrapList b
      | _ => (.arr [], .null))
    (match k with
      | .ok b => unwrapList b
      | _ => (.arr [], .null))
    (match f with
      | .ok b => unwrapList b
      | _ => (.arr [], .null))

/-! ### Per-organization summary and the organizations `GET` handler -/

/-- One element of `accountsWithDetails` (part_000 lines 233–246):
`{...account, ...details, id, name, open_findings}`.  The `details` spread
comes second, so every field of the `fetchAccountDetails` record (kept here in
the `details` component) overrides a like-named field of the account object
(kept in the `account` component); `id`, `name` and `open_findings` are then
set explicitly. -/
structure OrgSummary where
  account : Js
  details : OrgDetails
  id : Js
  name : Js
  open_findings : Js

/-- The body of the `accounts.map` callback (part_000 lines 234–245), with the
four per-account fetch outcomes supplied by `per` keyed on
`account.account_id`.
`open_findings: account.open_findings || details.openFindingsCount`. -/
def buildOrgSummary (per : Js → FetchOutcome × FetchOutcome × FetchOutcome × FetchOutcome)
    (account : Js) : OrgSummary :=
  let t := per (account.get "account_id")
  let details := fetchAccountDetails t.1 t.2.1 t.2.2.1 t.2.2.2
  { account := account
    details := details
    id := account.get "account_id"
    name := account.get "name"
    open_findings :=
      if (account.get "open_findings").truthy then account.get "open_findings"
      else .num details.openFindingsCount }

/-- The `totals` object (part_000 lines 249–266).  The license histogram is
kept as its lookup function: the fold below mirrors
`acc[org.license] = (acc[org.license] || 0) + 1` over a map defaulting to 0. -/
structure Totals where
  totalAgentDevices : Nat
  totalAgentKeys : Nat
  totalFindings : Nat
  totalCriticalFindings : Nat
  totalOpenFindings : Nat
  totalOnlineDevices : Nat
  totalSleepingDevices : Nat
  totalIsolatedDevices : Nat
  totalExcludedDevices : Nat
  totalAgentCountAvailable : Int
  totalAgentCountUsed : Int
  totalUserCount : Int
  licenseBreakdown : String → Nat

/-- `accountsWithDetails.reduce((sum, org) => sum + org.<field>, 0)`. -/
def reduceSum {M : Type} [Add M] (zero : M) (field : OrgSummary → M)
    (orgs : List OrgSummary) : M :=
  orgs.foldl (fun sum org => sum + field org) zero

/-- `accountsWithDetails.reduce((acc, org) => {acc[org.license] =
(acc[org.license] || 0) + 1; return acc}, {})`, as the function mapping each
license string to its bucket. -/
def licenseBreakdownFold (orgs : List OrgSummary) : String → Nat :=
  orgs.foldl
    (fun acc org => fun l => if l = org.details.license then acc l + 1 else acc l)
    (fun _ => 0)

/-- The totals computation (part_000 lines 249–266). -/
def computeTotals (orgs : List OrgSummary) : Totals where
  totalAgentDevices := reduceSum 0 (fun org => org.details.agentDeviceCount) orgs
  totalAgentKeys := reduceSum 0 (fun org => org.details.agentKeyCount) orgs
  totalFindings := reduceSum 0 (fun org => org.details.findingsCount) orgs
  totalCriticalFindings := reduceSum 0 (fun org => org.details.criticalFindingsCount) orgs
  totalOpenFindings := reduceSum 0 (fun org => org.details.openFindingsCount) orgs
  totalOnlineDevices := reduceSum 0 (fun org => org.details.onlineDevices) orgs
  totalSleepingDevices := reduceSum 0 (fun org => org.details.sleepingDevices) orgs
  totalIsolatedDevices := reduceSum 0 (fun org => org.details.isolatedDevices) orgs
  totalExcludedDevices := reduceSum 0 (fun org => org.details.excludedDevices) orgs
  totalAgentCountAvailable := reduceSum 0 (fun org => org.details.agent_count_available) orgs
  totalAgentCountUsed := reduceSum 0 (fun org => org.details.agent_count_used) orgs
  totalUserCount := reduceSum 0 (fun org => org.details.user_count) orgs
  licenseBreakdown := licenseBreakdownFold orgs

/-- The organizations route's HTTP response: a 200 JSON body
`{organizations, meta, totals, debug:{..., timestamp}}` or an error body
`{error, timestamp}` with status 500. -/
inductive ApiResponse where
  | ok (organizations : List OrgSummary) (meta : Js) (totals : Totals) (timestamp : String)
  | err (status : Nat) (error : String) (timestamp : String)

/-- The HTTP status of a response (200 on the success constructor). -/
def ApiResponse.statusCode : ApiResponse → Nat
  | .ok _ _ _ _ => 200
  | .err s _ _ => s

/-- The organizations list of a 200 response, `none` for error responses. -/
def ApiResponse.organizations? : ApiResponse → Option (List OrgSummary)
  | .ok orgs _ _ _ => some orgs
  | .err _ _ _ => none

/-- The organizations route's `GET` handler (part_000 lines 203–291) as a
function of the credentials, the auth-endpoint outcome, the accounts-list
outcome, the per-account fetch outcomes and the timestamp `now`
(`new Date().toISOString()`).  Any throw before the response is built lands in
the outer `catch` producing a 500 `{error, timestamp}` body; the non-array
`accountsData.data` case models the `TypeError` thrown by `accounts.map`. -/
def organizationsGET (clientId clientSecret : Option String)
    (authResp accountsResp : FetchOutcome)
    (per : Js → FetchOutcome × FetchOutcome × FetchOutcome × FetchOutcome)
    (now : String) : ApiResponse :=
  match getAccessToken_orgs clientId clientSecret authResp with
  | .error msg => .err 500 msg now
  | .ok _token =>
    match accountsResp with
    | .networkError msg => .err 500 msg now
    | .badJson msg => .err 500 msg now
    | .httpError status _text =>
        .err 500 ("Failed to fetch MSP accounts: " ++ toString status) now
    | .ok body =>
        if !(body.get "status").isStr "OK" || !(body.get "data").truthy then
          .err 500 "Invalid response format from MSP accounts endpoint" now
        else
          match (body.get "data").asArr? with
          | none => .err 500 "accounts.map is not a function" now
          | some accounts =>
              let orgs := accounts.map (buildOrgSummary per)
              .ok orgs (body.get "meta") (computeTotals orgs) now

/-! ### Credentials route (part_001 lines 1–123)

The route reads and mutates `process.env.BLUMIRA_CLIENT_ID` /
`process.env.BLUMIRA_CLIENT_SECRET`; that pair of variables is the state
threaded below.  (The parallel `.env.local` file write is persistence of the
same two values and carries no behavior the route's responses observe.) -/

/-- The two credential environment variables. -/
structure Env where
  clientId : Option String
  clientSecret : Option String

/-- The credentials-status body returned by the route's `GET`
(part_001 lines 9–25). -/
structure CredStatus where
  hasCredentials : Bool
  hasClientId : Bool
  hasClientSecret : Bool
  clientIdLength : Nat
  clientSecretLength : Nat

/-- `GET` of the credentials route: truthiness of each variable and
`process.env.X?.length || 0`. -/
def credentialsGET (env : Env) : CredStatus where
  hasCredentials := strTruthy env.clientId && strTruthy env.clientSecret
  hasClientId := strTruthy env.clientId
  hasClientSecret := strTruthy env.clientSecret
  clientIdLength := (env.clientId.map String.length).getD 0
  clientSecretLength := (env.clientSecret.map String.length).getD 0

/-- Outcomes of the credentials `POST`, by HTTP status and body shape. -/
inductive PostOutcome where
  | badRequest
  | unauthorized (error : String)
  | success

/-- `POST` of the credentials route (part_001 lines 27–97): 400 when either
submitted field is falsy; otherwise the pair is validated against the token
endpoint — non-2xx or a missing `access_token` yields 401 and leaves the
environment unchanged; on success both variables are set to the submitted
strings. -/
def credentialsPOST (env : Env) (clientId clientSecret : Option String)
    (auth : FetchOutcome) : Env × PostOutcome :=
  if !strTruthy clientId || !strTruthy clientSecret then
    (env, .badRequest)
  else
    match auth with
    | .httpError _ text => (env, .unauthorized ("Authentication failed: " ++ text))
    | .networkError _ => (env, .unauthorized "Authentication failed: fetch failed")
    | .badJson _ => (env, .unauthorized "Authentication failed: invalid JSON")
    | .ok body =>
        if !(body.get "access_token").truthy then
          (env, .unauthorized "Invalid response from authentication server")
        else
          ({ clientId := clientId, clientSecret := clientSecret }, .success)

/-- `DELETE` of the credentials route (part_001 lines 99–123): both variables
are removed from the environment. -/
def credentialsDELETE (_env : Env) : Env :=
  { clientId := none, clientSecret := none }

/-! ### Request-issuance traces of the per-account aggregation

`fetchAccountDetails` contains four `await fetch(...)` statements in sequence
(details at line 51, devices at 77, keys at 101, findings at 125).  Under the
event-loop semantics each `await fetch` contributes a request event followed —
before the next statement runs — by the matching response event; a
`Promise.all` of several fetches would instead issue all their requests before
consuming any response.  `fetchAccountDetailsTraced` re-plays the function's
statements in source order, recording that trace and producing the same record
from an oracle giving each endpoint's outcome. -/

/-- The four per-account endpoints fetched by `fetchAccountDetails`. -/
inductive Endpoint where
  | details
  | devices
  | keys
  | findings
  deriving DecidableEq

/-- A request being issued or its response completing. -/
inductive FetchEvent where
  | request (e : Endpoint)
  | response (e : Endpoint)
  deriving DecidableEq

/-- One `await fetch(...)`: the request is issued and its response consumed
before anything after it runs. -/
def awaitFetch (e : Endpoint) (oracle : Endpoint → FetchOutcome) :
    FetchOutcome × List FetchEvent :=
  (oracle e, [.request e, .response e])

/-- `fetchAccountDetails` with its event trace: the statements of part_000
lines 48–143 in source order — details awaited first, then devices, then
keys, then findings — followed by the computation of the record from all four
outcomes. -/
def fetchAccountDetailsTraced (oracle : Endpoint → FetchOutcome) :
    OrgDetails × List FetchEvent :=
  let d := awaitFetch .details oracle
  let dev := awaitFetch .devices oracle
  let k := awaitFetch .keys oracle
  let f := awaitFetch .findings oracle
  (fetchAccountDetails d.1 dev.1 k.1 f.1, d.2 ++ dev.2 ++ k.2 ++ f.2)

/-- All four endpoints. -/
def allEndpoints : List Endpoint := [.details, .devices, .keys, .findings]

/-- A trace issues the four fetches concurrently when every request event
precedes every response event (what a `Promise.all` fan-out of the four
fetches would produce). -/
def concurrentFanOut (t : List FetchEvent) : Bool :=
  allEndpoints.all (fun e =>
    allEndpoints.all (fun e2 =>
      t.indexOf (.request e) < t.indexOf (.response e2)))

/-- A trace is sequential when each fetch's response is consumed before the
next fetch's request is issued, in the order details, devices, keys,
findings. -/
def sequentialTrace (t : List FetchEvent) : Bool :=
  t = [.request .details, .response .details, .request .devices, .response .devices,
       .request .keys, .response .keys, .request .findings, .response .findings]

/-! ### Concrete inputs used in the theorems below -/

/-- An agent device that is excluded, alive and neither sleeping nor
isolated. -/
def cexDevice : Js :=
  .obj [("device_id", .str "dev-1"), ("is_excluded", .bool true),
        ("alive", .str "2024-05-01T00:00:00Z")]

/-- A 2xx response body that is a bare array payload (no envelope). -/
def bareListBody : Js := .arr [.obj [("device_id", .str "d1")]]

/-- A 2xx response body in the `{status:"OK", data, meta}` envelope. -/
def wrappedBody : Js :=
  .obj [("status", .str "OK"), ("data", .arr [.num 1, .num 2]),
        ("meta", .obj [("total_items", .num 2)])]

/-- A 2xx account-details body with no envelope (bare payload). -/
def bareDetailsBody : Js :=
  .obj [("agent_count_available", .num 5), ("license", .str "Cloud")]

/-- A successful token-endpoint body with no `access_token` field. -/
def noTokenBody : Js :=
  .obj [("token_type", .str "Bearer"), ("expires_in", .num 86400)]

/-- A successful token-endpoint body carrying a token. -/
def tokenBody : Js := .obj [("access_token", .str "tok-123")]

/-- Wraps a payload in the `{status:"OK", data, meta}` envelope. -/
def okEnvelope (data : Js) : Js :=
  .obj [("status", .str "OK"), ("data", data), ("meta", .null)]

/-- An MSP account record. -/
def acctA : Js := .obj [("account_id", .str "acct-a"), ("name", .str "Alpha")]

/-- A second MSP account record. -/
def acctB : Js := .obj [("account_id", .str "acct-b"), ("name", .str "Beta")]

/-- An accounts-list body holding the two accounts above. -/
def accountsBody2 : Js := okEnvelope (.arr [acctA, acctB])

/-- A critical, open finding. -/
def findingOpen : Js := .obj [("priority", .num 1), ("status_name", .str "Open")]

/-- Per-account fetch outcomes where account `acct-a`'s findings fetch returns
an HTTP 500 and everything else succeeds. -/
def perFindingsFail : Js → FetchOutcome × FetchOutcome × FetchOutcome × FetchOutcome :=
  fun id =>
    match id with
    | .str "acct-a" =>
        (.ok (okEnvelope (.obj [("license", .str "Pro")])), .ok (okEnvelope (.arr [])),
         .ok (okEnvelope (.arr [])), .httpError 500 "server error")
    | _ =>
        (.ok (okEnvelope (.obj [])), .ok (okEnvelope (.arr [])),
         .ok (okEnvelope (.arr [])), .ok (okEnvelope (.arr [findingOpen])))

/-- An organization summary whose details carry the given license (all other
fields at their defaults). -/
def licenseOrg (lic : String) : OrgSummary where
  account := .null
  details := { defaultOrgDetails with license := lic }
  id := .null
  name := .null
  open_findings := .null

/-- The license histogram example: organizations licensed
`["FREE", "Enterprise", "FREE"]`. -/
def licenseExample : List OrgSummary :=
  [licenseOrg "FREE", licenseOrg "Enterprise", licenseOrg "FREE"]

/-- An oracle under which every per-account fetch fails at the network
level. -/
def downOracle : Endpoint → FetchOutcome := fun _ => .networkError "fetch failed"

/-- An MSP account whose accounts-list record reports `open_findings: 0`. -/
def acctZeroOpen : Js :=
  .obj [("account_id", .str "acct-z"), ("name", .str "Zeta"),
        ("open_findings", .num 0)]

/-- Per-account fetch outcomes where every resource succeeds and the findings
payload holds one open finding. -/
def perOneOpenFinding : Js → FetchOutcome × FetchOutcome × FetchOutcome × FetchOutcome :=
  fun _ =>
    (.ok (okEnvelope (.obj [])), .ok (okEnvelope (.arr [])),
     .ok (okEnvelope (.arr [])), .ok (okEnvelope (.arr [findingOpen])))

/-! ### Helper lemmas -/

/-- The `reduce((sum, org) => sum + f(org), 0)` fold is the sum of the mapped
list. -/
theorem reduceSum_eq_sum {M : Type} [AddCommMonoid M] (f : OrgSummary → M)
    (orgs : List OrgSummary) : reduceSum 0 f orgs = (orgs.map f).sum := by
  suffices h : ∀ z : M, orgs.foldl (fun sum org => sum + f org) z = z + (orgs.map f).sum by
    simpa [reduceSum] using h 0
  induction orgs with
  | nil => intro z; simp
  | cons o rest ih => intro z; simp [List.foldl, ih, add_assoc]

/-- The license fold counts, at each key, the organizations bearing exactly
that license string. -/
theorem licenseBreakdownFold_eq (orgs : List OrgSummary) (l : String) :
    licenseBreakdownFold orgs l
      = (orgs.filter (fun o => o.details.license = l)).length := by
  suffices h : ∀ acc : String → Nat,
      (orgs.foldl
        (fun acc org => fun s => if s = org.details.license then acc s + 1 else acc s)
        acc) l
      = acc l + (orgs.filter (fun o => o.details.license = l)).length by
    simpa [licenseBreakdownFold] using h (fun _ => 0)
  induction orgs with
  | nil => intro acc; simp
  | cons o rest ih =>
      intro acc
      by_cases ho : o.details.license = l
      · simp [List.foldl, List.filter, ho, ih]
        omega
      · have hne : ¬ l = o.details.license := fun hl => ho hl.symm
        simp [List.foldl, List.filter, hne, ho, ih]

/-- A JSON value whose array view is `some xs` is the array `xs` (hence
truthy). -/
theorem asArr?_eq_some {j : Js} {xs : List Js} (h : j.asArr? = some xs) :
    j = .arr xs ∧ j.truthy = true := by
  cases j <;> simp [Js.asArr?] at h
  subst h
  exact ⟨rfl, rfl⟩

/-- Whatever the other pairs hold, a record assembled from the empty findings
pair carries no findings, on the happy path and on the outer-catch path
alike. -/
theorem assembleOrgDetails_findings_empty (acc : Js) (p q : Js × Js) :
    (assembleOrgDetails acc p q (.arr [], .null)).findings = []
      ∧ (assembleOrgDetails acc p q (.arr [], .null)).findingsCount = 0 := by
  rcases p with ⟨p1, p2⟩
  rcases q with ⟨q1, q2⟩
  cases p1 <;> cases q1 <;>
    simp [assembleOrgDetails, Js.asArr?, defaultOrgDetails, List.filter]

/-- When the findings fetch does not produce a 2xx body, the aggregator's
record carries no findings, on the happy path and on the outer-catch path
alike. -/
theorem fetchAccountDetails_findings_empty (d dev k f : FetchOutcome)
    (hf : f.body? = none) :
    (fetchAccountDetails d dev k f).findings = []
      ∧ (fetchAccountDetails d dev k f).findingsCount = 0 := by
  cases f with
  | ok b => simp [FetchOutcome.body?] at hf
  | badJson msg => exact assembleOrgDetails_findings_empty _ _ _
  | httpError s t => exact assembleOrgDetails_findings_empty _ _ _
  | networkError msg => exact assembleOrgDetails_findings_empty _ _ _

/-- A helper used by several handlers below: the organizations `GET` on a
well-formed accounts envelope returns the 200 body built from the mapped
summaries. -/
theorem organizationsGET_ok (cid cs : String) (hcid : cid ≠ "") (hcs : cs ≠ "")
    (auth abody : Js) (accounts : List Js)
    (hstat : (abody.get "status").isStr "OK" = true)
    (harr : (abody.get "data").asArr? = some accounts)
    (per : Js → FetchOutcome × FetchOutcome × FetchOutcome × FetchOutcome)
    (now : String) :
    organizationsGET (some cid) (some cs) (.ok auth) (.ok abody) per now
      = .ok (accounts.map (buildOrgSummary per)) (abody.get "meta")
          (computeTotals (accounts.map (buildOrgSummary per))) now := by
  obtain ⟨heq, htr⟩ := asArr?_eq_some harr
  simp [organizationsGET, getAccessToken_orgs, strTruthy, hcid, hcs, hstat, htr, harr]

/-- A nonempty string has nonzero length. -/
theorem strLength_ne_zero (s : String) (h : s ≠ "") : s.length ≠ 0 := by
  intro hl
  apply h
  cases s with
  | mk data =>
    cases data with
    | nil => rfl
    | cons a l => simp [String.length] at hl

/-! ### Claims -/

/-- C1 counterexample: the device-status buckets are not a partition and do
not apply the excluded > isolated > sleeping > online precedence — a device
with `is_excluded = true` that is alive and not sleeping is counted in
`excludedDevices` AND in `onlineDevices`, so the one-element list yields
bucket counts summing to 2. -/
theorem C1_excluded_device_double_counted :
    excludedDevicesCount [cexDevice] = 1
  ∧ onlineDevicesCount [cexDevice] = 1
  ∧ sleepingDevicesCount [cexDevice] = 0
  ∧ isolatedDevicesCount [cexDevice] = 0
  ∧ onlineDevicesCount [cexDevice] + sleepingDevicesCount [cexDevice]
      + isolatedDevicesCount [cexDevice] + excludedDevicesCount [cexDevice] = 2
  ∧ [cexDevice].length = 1 := by
  exact ⟨rfl, rfl, rfl, rfl, rfl, rfl⟩

/-- C1 amended: the Aggregator's four device-status counts are independent
filters, not a partition.  A device is counted in `excludedDevices` iff
`is_excluded` is truthy (so an excluded device is always counted there,
regardless of other flags), in `isolatedDevices` iff `is_isolated`, in
`sleepingDevices` iff `is_sleeping`, and in `onlineDevices` iff it is alive
and not sleeping — membership in one bucket never suppresses another, and
each count is additive over concatenation of device lists. -/
theorem C1_device_buckets_independent_filters (d : Js) (l1 l2 : List Js) :
    excludedDevicesCount [d] = (if (d.get "is_excluded").truthy then 1 else 0)
  ∧ isolatedDevicesCount [d] = (if (d.get "is_isolated").truthy then 1 else 0)
  ∧ sleepingDevicesCount [d] = (if (d.get "is_sleeping").truthy then 1 else 0)
  ∧ onlineDevicesCount [d]
      = (if !(d.get "is_sleeping").truthy && (d.get "alive").truthy then 1 else 0)
  ∧ excludedDevicesCount (l1 ++ l2) = excludedDevicesCount l1 + excludedDevicesCount l2
  ∧ isolatedDevicesCount (l1 ++ l2) = isolatedDevicesCount l1 + isolatedDevicesCount l2
  ∧ sleepingDevicesCount (l1 ++ l2) = sleepingDevicesCount l1 + sleepingDevicesCount l2
  ∧ onlineDevicesCount (l1 ++ l2) = onlineDevicesCount l1 + onlineDevicesCount l2 := by
  refine ⟨?_, ?_, ?_, ?_, ?_, ?_, ?_, ?_⟩
  · simp [excludedDevicesCount, List.filter]
    split <;> simp_all
  · simp [isolatedDevicesCount, List.filter]
    split <;> simp_all
  · simp [sleepingDevicesCount, List.filter]
    split <;> simp_all
  · cases hs : (d.get "is_sleeping").truthy <;> cases ha : (d.get "alive").truthy <;>
      simp [onlineDevicesCount, List.filter, hs, ha]
  · simp [excludedDevicesCount, List.filter_append]
  · simp [isolatedDevicesCount, List.filter_append]
  · simp [sleepingDevicesCount, List.filter_append]
  · simp [onlineDevicesCount, List.filter_append]

/-- C2 counterexample: a 2xx devices response whose body is a bare array
payload (no `{status:"OK"}` envelope) is NOT treated as the payload — the
aggregator leaves `agentDevices` empty instead of falling back to the whole
body, so the fallback claimed for all fetchers fails for the devices fetch. -/
theorem C2_bare_devices_payload_dropped :
    (bareListBody.get "status").isStr "OK" = false
  ∧ bareListBody.asArr? = some [Js.obj [("device_id", .str "d1")]]
  ∧ (fetchAccountDetails (.ok (Js.obj [])) (.ok bareListBody)
      (.ok (Js.obj [])) (.ok (Js.obj []))).agentDevices = []
  ∧ (fetchAccountDetails (.ok (Js.obj [])) (.ok bareListBody)
      (.ok (Js.obj [])) (.ok (Js.obj []))).agentDeviceCount = 0
  ∧ (fetchAccountDetails (.ok (Js.obj [])) (.ok bareListBody)
      (.ok (Js.obj [])) (.ok (Js.obj []))).agentDevices
      ≠ [Js.obj [("device_id", .str "d1")]] := by
  refine ⟨rfl, rfl, rfl, rfl, ?_⟩
  intro h
  have h2 : ([] : List Js) = [Js.obj [("device_id", Js.str "d1")]] := h
  simp at h2

/-- C2 amended: only the account-details fetch falls back to treating the
whole 2xx body as the payload when the envelope check fails; the devices,
keys and findings fetches (which share `unwrapList`) leave their payload
empty (`[]`/`null` meta) in that case, and the accounts-list fetch turns a
non-`"OK"` envelope into a 500 `"Invalid response format from MSP accounts
endpoint"` error for the whole request. -/
theorem C2_envelope_fallback_only_details (b auth : Js) (cid cs : String)
    (hcid : cid ≠ "") (hcs : cs ≠ "")
    (per : Js → FetchOutcome × FetchOutcome × FetchOutcome × FetchOutcome)
    (now : String) :
    (((b.get "status").isStr "OK" && (b.get "data").truthy) = true →
        unwrapDetails b = b.get "data" ∧ unwrapList b = (b.get "data", b.get "meta"))
  ∧ (((b.get "status").isStr "OK" && (b.get "data").truthy) = false →
        unwrapDetails b = b ∧ unwrapList b = (.arr [], .null))
  ∧ ((b.get "status").isStr "OK" = false →
        organizationsGET (some cid) (some cs) (.ok auth) (.ok b) per now
          = .err 500 "Invalid response format from MSP accounts endpoint" now) := by
  refine ⟨?_, ?_, ?_⟩
  · intro h
    exact ⟨by simp [unwrapDetails, h], by simp [unwrapList, h]⟩
  · intro h
    exact ⟨by simp [unwrapDetails, h], by simp [unwrapList, h]⟩
  · intro h
    simp [organizationsGET, getAccessToken_orgs, strTruthy, hcid, hcs, h]

/-- C2 amended, witness: on a wrapped body both unwraps take the `data`
field; on a bare body the details unwrap keeps the whole body while the list
unwrap yields the empty payload. -/
theorem C2_envelope_fallback_only_details_witness :
    unwrapDetails wrappedBody = .arr [.num 1, .num 2]
  ∧ unwrapList wrappedBody = (.arr [.num 1, .num 2], .obj [("total_items", .num 2)])
  ∧ unwrapDetails bareDetailsBody = bareDetailsBody
  ∧ unwrapList bareDetailsBody = (.arr [], .null)
  ∧ organizationsGET (some "id") (some "secret") (.ok tokenBody) (.ok bareDetailsBody)
      perOneOpenFinding "ts"
      = .err 500 "Invalid response format from MSP accounts endpoint" "ts" := by
  have hw := C2_envelope_fallback_only_details wrappedBody tokenBody "id" "secret"
    (by simp) (by simp) perOneOpenFinding "ts"
  have hb := C2_envelope_fallback_only_details bareDetailsBody tokenBody "id" "secret"
    (by simp) (by simp) perOneOpenFinding "ts"
  exact ⟨(hw.1 rfl).1, (hw.1 rfl).2, (hb.2.1 rfl).1, (hb.2.1 rfl).2, hb.2.2 rfl⟩

/-- C3 counterexample: the organizations route's token acquirer, given a 2xx
token response whose body has no `access_token` field, does not fail — it
returns the missing (`undefined`, modelled `.null`) token to its caller. -/
theorem C3_orgs_acquirer_returns_missing_token :
    noTokenBody.get "access_token" = Js.null
  ∧ getAccessToken_orgs (some "client-id") (some "client-secret") (.ok noTokenBody)
      = .ok Js.null := by
  exact ⟨rfl, rfl⟩

/-- C3 amended: only the dashboard route's token acquirer fails (with
`"No access token received from authentication endpoint"`) on a successful
token response lacking a truthy `access_token`; the organizations route's
token acquirer returns the body's `access_token` field unchecked, so a
missing token is passed through as `undefined`. -/
theorem C3_token_validation_differs (cid cs : String) (hcid : cid ≠ "")
    (hcs : cs ≠ "") (body : Js) :
    getAccessToken_orgs (some cid) (some cs) (.ok body) = .ok (body.get "access_token")
  ∧ ((body.get "access_token").truthy = false →
      getAccessToken_dashboard (some cid) (some cs) (.ok body)
        = .error "No access token received from authentication endpoint")
  ∧ ((body.get "access_token").truthy = true →
      getAccessToken_dashboard (some cid) (some cs) (.ok body)
        = .ok (body.get "access_token")) := by
  refine ⟨?_, ?_, ?_⟩
  · simp [getAccessToken_orgs, strTruthy, hcid, hcs]
  · intro h
    simp [getAccessToken_dashboard, strTruthy, hcid, hcs, h]
  · intro h
    simp [getAccessToken_dashboard, strTruthy, hcid, hcs, h]

/-- C3 amended, witness at a token-less and a token-bearing body. -/
theorem C3_token_validation_differs_witness :
    getAccessToken_orgs (some "id") (some "secret") (.ok noTokenBody) = .ok Js.null
  ∧ getAccessToken_dashboard (some "id") (some "secret") (.ok noTokenBody)
      = .error "No access token received from authentication endpoint"
  ∧ getAccessToken_dashboard (some "id") (some "secret") (.ok tokenBody)
      = .ok (.str "tok-123") := by
  have h1 := C3_token_validation_differs "id" "secret" (by simp) (by simp) noTokenBody
  have h2 := C3_token_validation_differs "id" "secret" (by simp) (by simp) tokenBody
  exact ⟨h1.1, h1.2.1 rfl, h2.2.2 rfl⟩

/-- C4: when one organization's findings fetch fails (non-2xx status, network
error or unparsable body), that organization's summary has `findings = []`
and `findingsCount = 0`, the failure does not propagate — the request still
answers 200 with one summary per account — and summaries of accounts whose
fetches are unchanged are unchanged. -/
theorem C4_findings_failure_degrades (cid cs : String) (hcid : cid ≠ "")
    (hcs : cs ≠ "") (auth abody : Js) (accounts : List Js)
    (hstat : (abody.get "status").isStr "OK" = true)
    (harr : (abody.get "data").asArr? = some accounts)
    (per per' : Js → FetchOutcome × FetchOutcome × FetchOutcome × FetchOutcome)
    (aid : Js) (now : String)
    (hfail : (per aid).2.2.2.body? = none) :
    (organizationsGET (some cid) (some cs) (.ok auth) (.ok abody) per now).statusCode = 200
  ∧ (organizationsGET (some cid) (some cs) (.ok auth) (.ok abody) per now).organizations?
      = some (accounts.map (buildOrgSummary per))
  ∧ (∀ a ∈ accounts, a.get "account_id" = aid →
      (buildOrgSummary per a).details.findings = []
        ∧ (buildOrgSummary per a).details.findingsCount = 0)
  ∧ ((∀ b, b ≠ aid → per' b = per b) →
      ∀ a ∈ accounts, a.get "account_id" ≠ aid →
        buildOrgSummary per' a = buildOrgSummary per a) := by
  have hok := organizationsGET_ok cid cs hcid hcs auth abody accounts hstat harr per now
  refine ⟨by rw [hok]; rfl, by rw [hok]; rfl, ?_, ?_⟩
  · intro a _ha haid
    have : (buildOrgSummary per a).details
        = fetchAccountDetails (per aid).1 (per aid).2.1 (per aid).2.2.1 (per aid).2.2.2 := by
      simp [buildOrgSummary, haid]
    rw [this]
    exact fetchAccountDetails_findings_empty _ _ _ _ hfail
  · intro hagree a _ha hne
    simp [buildOrgSummary, hagree _ hne]

/-- C4 witness: two accounts where `acct-a`'s findings fetch returns HTTP 500
and everything else succeeds — the request is a 200, `acct-a`'s summary is
findings-empty, and `acct-b`'s summary still counts its one finding. -/
theorem C4_findings_failure_degrades_witness :
    (organizationsGET (some "id") (some "secret") (.ok tokenBody) (.ok accountsBody2)
        perFindingsFail "ts").statusCode = 200
  ∧ (buildOrgSummary perFindingsFail acctA).details.findings = []
  ∧ (buildOrgSummary perFindingsFail acctA).details.findingsCount = 0
  ∧ (buildOrgSummary perFindingsFail acctB).details.findingsCount = 1 := by
  have h := C4_findings_failure_degrades "id" "secret" (by simp) (by simp)
    tokenBody accountsBody2 [acctA, acctB] rfl rfl
    perFindingsFail perFindingsFail (Js.str "acct-a") "ts" rfl
  refine ⟨h.1, ?_, ?_, rfl⟩
  · exact (h.2.2.1 acctA (by simp) rfl).1
  · exact (h.2.2.1 acctA (by simp) rfl).2

/-- C5: when the top-level accounts fetch returns a non-2xx status, the
organizations endpoint responds 500 with the error message
`"Failed to fetch MSP accounts: <status>"` — which contains the upstream
status code — together with the timestamp, and carries no organizations
list. -/
theorem C5_accounts_fetch_failure_is_500 (cid cs : String) (hcid : cid ≠ "")
    (hcs : cs ≠ "") (auth : Js) (status : Nat) (text : String)
    (per : Js → FetchOutcome × FetchOutcome × FetchOutcome × FetchOutcome)
    (now : String) :
    organizationsGET (some cid) (some cs) (.ok auth) (.httpError status text) per now
      = .err 500 ("Failed to fetch MSP accounts: " ++ toString status) now
  ∧ (∃ pre post : String,
      "Failed to fetch MSP accounts: " ++ toString status = pre ++ toString status ++ post)
  ∧ (organizationsGET (some cid) (some cs) (.ok auth) (.httpError status text)
      per now).organizations? = none := by
  have hmain : organizationsGET (some cid) (some cs) (.ok auth) (.httpError status text) per now
      = .err 500 ("Failed to fetch MSP accounts: " ++ toString status) now := by
    simp [organizationsGET, getAccessToken_orgs, strTruthy, hcid, hcs]
  refine ⟨hmain, ⟨"Failed to fetch MSP accounts: ", "", by simp⟩, ?_⟩
  rw [hmain]
  rfl

/-- C5 witness at a concrete 503 upstream failure. -/
theorem C5_accounts_fetch_failure_is_500_witness :
    organizationsGET (some "id") (some "secret") (.ok tokenBody)
      (.httpError 503 "unavailable") perOneOpenFinding "ts"
      = .err 500 "Failed to fetch MSP accounts: 503" "ts" := by
  have h := C5_accounts_fetch_failure_is_500 "id" "secret" (by simp) (by simp)
    tokenBody 503 "unavailable" perOneOpenFinding "ts"
  exact h.1

/-- C6: every numeric field of the totals object is the element-wise sum of
the corresponding per-organization field over the summaries, in the order the
summaries appear. -/
theorem C6_totals_elementwise_sums (orgs : List OrgSummary) :
    (computeTotals orgs).totalAgentDevices
      = (orgs.map (fun o => o.details.agentDeviceCount)).sum
  ∧ (computeTotals orgs).totalAgentKeys
      = (orgs.map (fun o => o.details.agentKeyCount)).sum
  ∧ (computeTotals orgs).totalFindings
      = (orgs.map (fun o => o.details.findingsCount)).sum
  ∧ (computeTotals orgs).totalCriticalFindings
      = (orgs.map (fun o => o.details.criticalFindingsCount)).sum
  ∧ (computeTotals orgs).totalOpenFindings
      = (orgs.map (fun o => o.details.openFindingsCount)).sum
  ∧ (computeTotals orgs).totalOnlineDevices
      = (orgs.map (fun o => o.details.onlineDevices)).sum
  ∧ (computeTotals orgs).totalSleepingDevices
      = (orgs.map (fun o => o.details.sleepingDevices)).sum
  ∧ (computeTotals orgs).totalIsolatedDevices
      = (orgs.map (fun o => o.details.isolatedDevices)).sum
  ∧ (computeTotals orgs).totalExcludedDevices
      = (orgs.map (fun o => o.details.excludedDevices)).sum
  ∧ (computeTotals orgs).totalAgentCountAvailable
      = (orgs.map (fun o => o.details.agent_count_available)).sum
  ∧ (computeTotals orgs).totalAgentCountUsed
      = (orgs.map (fun o => o.details.agent_count_used)).sum
  ∧ (computeTotals orgs).totalUserCount
      = (orgs.map (fun o => o.details.user_count)).sum := by
  refine ⟨?_, ?_, ?_, ?_, ?_, ?_, ?_, ?_, ?_, ?_, ?_, ?_⟩ <;>
    simp [computeTotals, reduceSum_eq_sum]

/-- C7: the license histogram is keyed by the literal license string — each
key counts exactly the organizations bearing that string — and on the
example licenses `["FREE", "Enterprise", "FREE"]` it is
`{FREE: 2, Enterprise: 1}` with `"Free"` a distinct (empty) bucket. -/
theorem C7_license_histogram_literal (orgs : List OrgSummary) (l : String) :
    (computeTotals orgs).licenseBreakdown l
      = (orgs.filter (fun o => o.details.license = l)).length
  ∧ (computeTotals licenseExample).licenseBreakdown "FREE" = 2
  ∧ (computeTotals licenseExample).licenseBreakdown "Enterprise" = 1
  ∧ (computeTotals licenseExample).licenseBreakdown "Free" = 0
  ∧ "Free" ≠ "FREE" := by
  exact ⟨licenseBreakdownFold_eq orgs l, rfl, rfl, rfl, by simp⟩

/-- C8: submitting a non-empty client id and secret that the token endpoint
accepts yields a success response and updates the environment so that a
subsequent credentials-status read reports `hasCredentials = true` with the
submitted strings' (non-zero) lengths; a subsequent DELETE resets the status
to `hasCredentials = false`. -/
theorem C8_credentials_roundtrip (env : Env) (cid cs : String) (hcid : cid ≠ "")
    (hcs : cs ≠ "") (body : Js) (htok : (body.get "access_token").truthy = true) :
    (credentialsPOST env (some cid) (some cs) (.ok body)).2 = .success
  ∧ (credentialsGET (credentialsPOST env (some cid) (some cs) (.ok body)).1).hasCredentials
      = true
  ∧ (credentialsGET (credentialsPOST env (some cid) (some cs) (.ok body)).1).clientIdLength
      = cid.length
  ∧ (credentialsGET (credentialsPOST env (some cid) (some cs) (.ok body)).1).clientSecretLength
      = cs.length
  ∧ cid.length ≠ 0
  ∧ cs.length ≠ 0
  ∧ (credentialsGET (credentialsDELETE
      (credentialsPOST env (some cid) (some cs) (.ok body)).1)).hasCredentials = false := by
  have hpost : credentialsPOST env (some cid) (some cs) (.ok body)
      = ({ clientId := some cid, clientSecret := some cs }, .success) := by
    simp [credentialsPOST, strTruthy, hcid, hcs, htok]
  refine ⟨by rw [hpost], ?_, ?_, ?_, strLength_ne_zero cid hcid, strLength_ne_zero cs hcs, ?_⟩
  · rw [hpost]
    simp [credentialsGET, strTruthy, hcid, hcs]
  · rw [hpost]
    rfl
  · rw [hpost]
    rfl
  · rw [hpost]
    rfl

/-- C8 witness: a concrete round-trip through POST, GET and DELETE. -/
theorem C8_credentials_roundtrip_witness :
    (credentialsPOST ⟨none, none⟩ (some "my-client") (some "my-secret") (.ok tokenBody)).2
      = .success
  ∧ (credentialsGET (credentialsPOST ⟨none, none⟩ (some "my-client") (some "my-secret")
      (.ok tokenBody)).1).hasCredentials = true
  ∧ (credentialsGET (credentialsPOST ⟨none, none⟩ (some "my-client") (some "my-secret")
      (.ok tokenBody)).1).clientIdLength = "my-client".length
  ∧ (credentialsGET (credentialsPOST ⟨none, none⟩ (some "my-client") (some "my-secret")
      (.ok tokenBody)).1).clientSecretLength = "my-secret".length
  ∧ "my-client".length ≠ 0
  ∧ "my-secret".length ≠ 0
  ∧ (credentialsGET (credentialsDELETE (credentialsPOST ⟨none, none⟩ (some "my-client")
      (some "my-secret") (.ok tokenBody)).1)).hasCredentials = false := by
  exact C8_credentials_roundtrip ⟨none, none⟩ "my-client" "my-secret"
    (by simp) (by simp) tokenBody rfl

/-- C9 counterexample: the per-organization aggregation does not issue its
four fetches concurrently — in its event trace the details response is
consumed before the devices request is even issued, so no fan-out of all four
requests precedes the responses. -/
theorem C9_fetches_not_issued_concurrently :
    concurrentFanOut (fetchAccountDetailsTraced downOracle).2 = false
  ∧ (fetchAccountDetailsTraced downOracle).2.indexOf (.response .details)
      < (fetchAccountDetailsTraced downOracle).2.indexOf (.request .devices) := by
  exact ⟨rfl, by decide⟩

/-- C9 amended: within one organization the four resource fetches are issued
sequentially — each response is awaited before the next request is issued, in
the order details, devices, keys, findings — and all four outcomes are joined
before the summary record is computed; across organizations the handler still
produces, via its single fan-out/join, one summary per returned account. -/
theorem C9_sequential_fetches_joined (oracle : Endpoint → FetchOutcome)
    (cid cs : String) (hcid : cid ≠ "") (hcs : cs ≠ "")
    (auth abody : Js) (accounts : List Js)
    (hstat : (abody.get "status").isStr "OK" = true)
    (harr : (abody.get "data").asArr? = some accounts)
    (per : Js → FetchOutcome × FetchOutcome × FetchOutcome × FetchOutcome)
    (now : String) :
    sequentialTrace (fetchAccountDetailsTraced oracle).2 = true
  ∧ concurrentFanOut (fetchAccountDetailsTraced oracle).2 = false
  ∧ (fetchAccountDetailsTraced oracle).1
      = fetchAccountDetails (oracle .details) (oracle .devices) (oracle .keys)
          (oracle .findings)
  ∧ (organizationsGET (some cid) (some cs) (.ok auth) (.ok abody) per now).organizations?
      = some (accounts.map (buildOrgSummary per)) := by
  refine ⟨rfl, rfl, rfl, ?_⟩
  rw [organizationsGET_ok cid cs hcid hcs auth abody accounts hstat harr per now]
  rfl

/-- C9 amended, witness at a concrete oracle and accounts list. -/
theorem C9_sequential_fetches_joined_witness :
    sequentialTrace (fetchAccountDetailsTraced downOracle).2 = true
  ∧ (organizationsGET (some "id") (some "secret") (.ok tokenBody) (.ok accountsBody2)
      perOneOpenFinding "ts").organizations?
      = some ([acctA, acctB].map (buildOrgSummary perOneOpenFinding)) := by
  have h := C9_sequential_fetches_joined downOracle "id" "secret" (by simp) (by simp)
    tokenBody accountsBody2 [acctA, acctB] rfl rfl perOneOpenFinding "ts"
  exact ⟨h.1, h.2.2.2⟩

/-- C10: a summary's `open_findings` is the accounts-list record's
`open_findings` when that value is truthy and otherwise the locally computed
`openFindingsCount`; in particular an upstream value of 0 — being falsy — is
silently replaced by the locally computed count. -/
theorem C10_open_findings_truthy_merge
    (per : Js → FetchOutcome × FetchOutcome × FetchOutcome × FetchOutcome)
    (account : Js) :
    (buildOrgSummary per account).open_findings
      = (if (account.get "open_findings").truthy then account.get "open_findings"
         else .num (buildOrgSummary per account).details.openFindingsCount)
  ∧ (account.get "open_findings" = Js.num 0 →
      (buildOrgSummary per account).open_findings
        = .num (buildOrgSummary per account).details.openFindingsCount) := by
  constructor
  · rfl
  · intro h
    simp [buildOrgSummary, h, Js.truthy]

/-- C10 witness: an account reporting `open_findings: 0` upstream whose
findings fetch holds one open finding — the summary's `open_findings` is the
locally computed 1, not the upstream 0. -/
theorem C10_open_findings_truthy_merge_witness :
    acctZeroOpen.get "open_findings" = Js.num 0
  ∧ (buildOrgSummary perOneOpenFinding acctZeroOpen).details.openFindingsCount = 1
  ∧ (buildOrgSummary perOneOpenFinding acctZeroOpen).open_findings = Js.num 1 := by
  have h := (C10_open_findings_truthy_merge perOneOpenFinding acctZeroOpen).2 rfl
  exact ⟨rfl, rfl, h.trans rfl⟩

end Blumira
